import Mathlib

/-!
Shallow embedding of the email-processing core of the fin-officer/js
repository: the keyword tone classifier (src/services/llmService.js), the
tone-analysis data model (src/models/toneAnalysis.js), the reply decision
and reply generation (src/services/emailService.js and the class-based
EmailService variant), and the persisted message lifecycle.

Strings from the JavaScript code are embedded as List Char for the free
text that the classifier scans, and as String for enum-like tags
(sentiment, urgency, formality, status) that are only compared for
equality.  Database effects are made explicit: every UPDATE of a message
status is recorded in a write log, and the SQLite table is a list of
(id, status) pairs, which is all the claims observe.
-/

/-- Enumerated sentiment tags (src/models/toneAnalysis.js, object Sentiment). -/
def sentimentValues : List String :=
  ["VERY_NEGATIVE", "NEGATIVE", "NEUTRAL", "POSITIVE", "VERY_POSITIVE"]

/-- Enumerated urgency tags (src/models/toneAnalysis.js, object Urgency). -/
def urgencyValues : List String :=
  ["LOW", "NORMAL", "HIGH", "CRITICAL"]

/-- Enumerated formality tags (src/models/toneAnalysis.js, object Formality). -/
def formalityValues : List String :=
  ["VERY_INFORMAL", "INFORMAL", "NEUTRAL", "FORMAL", "VERY_FORMAL"]

/-- Tone analysis record (src/models/toneAnalysis.js, class ToneAnalysis).
Emotion weights are JavaScript numbers; the concrete weights occurring in
the code (0.2 ... 1.0) are embedded as rationals, no arithmetic is done on
them. -/
structure ToneAnalysis where
  sentiment : String
  emotions : List (String × ℚ)
  urgency : String
  formality : String
  topTopics : List (List Char)
  summaryText : List Char
deriving DecidableEq

/-- Default analysis (src/models/toneAnalysis.js, ToneAnalysis.createDefault). -/
def ToneAnalysis.createDefault : ToneAnalysis :=
  { sentiment := "NEUTRAL"
    emotions := [("NEUTRAL", 1)]
    urgency := "NORMAL"
    formality := "NEUTRAL"
    topTopics := []
    summaryText := "Nie można przeanalizować treści wiadomości.".toList }

/-- Lower-casing used by mockAnalysis (content.toLowerCase(); the keyword
sets are ASCII, for which Char.toLower agrees with the JavaScript call). -/
def lowerContent (content : List Char) : List Char :=
  content.map Char.toLower

/-- Substring test, the embedding of JavaScript String.prototype.includes. -/
def containsSub (hay pat : List Char) : Bool :=
  match hay with
  | [] => pat.isEmpty
  | _ :: t => pat.isPrefixOf hay || containsSub t pat

/-- Word characters of the JavaScript regex class \w, that is [A-Za-z0-9_]. -/
def isWordChar (c : Char) : Bool :=
  (('a' ≤ c && c ≤ 'z') || ('A' ≤ c && c ≤ 'Z') || ('0' ≤ c && c ≤ '9') || c == '_')

/-- Accumulator pass splitting a character list into maximal runs of word
characters (the non-empty pieces of content.split(/\W+/); empty pieces are
discarded, they are removed by the length filter in the source anyway). -/
def splitWordsAux : List Char → List Char → List (List Char)
  | [], acc => if acc.isEmpty then [] else [acc.reverse]
  | c :: cs, acc =>
    if isWordChar c then splitWordsAux cs (c :: acc)
    else if acc.isEmpty then splitWordsAux cs [] else acc.reverse :: splitWordsAux cs []

/-- Tokenisation on non-word boundaries (mockAnalysis, lowerContent.split(/\W+/)). -/
def splitWords (cs : List Char) : List (List Char) :=
  splitWordsAux cs []

/-- Stop list of mockAnalysis (the array literal in the filter). -/
def stopWords : List (List Char) :=
  ["from".toList, "this".toList, "that".toList, "with".toList, "have".toList, "your".toList]

/-- Frequency update for one token, mirroring
wordCounts[word] = (wordCounts[word] || 0) + 1 on a JavaScript object whose
keys keep insertion order. -/
def bumpCount (m : List (List Char × Nat)) (w : List Char) : List (List Char × Nat) :=
  if m.any (fun p => p.1 == w) then
    m.map (fun p => if p.1 == w then (p.1, p.2 + 1) else p)
  else m ++ [(w, 1)]

/-- Token frequency table of mockAnalysis (the words.forEach loop). -/
def wordCounts (ws : List (List Char)) : List (List Char × Nat) :=
  ws.foldl bumpCount []

/-- Stable descending insertion for the count comparator
(a, b) => b[1] - a[1] of mockAnalysis. -/
def insertDesc (p : List Char × Nat) : List (List Char × Nat) → List (List Char × Nat)
  | [] => [p]
  | q :: t => if q.2 ≤ p.2 then p :: q :: t else q :: insertDesc p t

/-- Stable sort by descending count (Object.entries(wordCounts).sort(...)). -/
def sortByCountDesc : List (List Char × Nat) → List (List Char × Nat)
  | [] => []
  | x :: xs => insertDesc x (sortByCountDesc xs)

/-- Topic extraction of mockAnalysis: filter tokens longer than three
characters and outside the stop list, count, sort by descending count,
keep the first four, project the words (.slice(0, 4).map(entry => entry[0])). -/
def topTopicsOf (lc : List Char) : List (List Char) :=
  let words := (splitWords lc).filter (fun w => decide (3 < w.length) && !(stopWords.contains w))
  ((sortByCountDesc (wordCounts words)).take 4).map (fun p => p.1)

/-- Summary of mockAnalysis: first 100 characters of the raw content plus
"..." when longer than 100 characters, else the content unchanged. -/
def summaryOf (content : List Char) : List Char :=
  if 100 < content.length then content.take 100 ++ "...".toList else content

/-- Sentiment cascade of mockAnalysis: problem/error/issue before
angry/frustrated/terrible before thanks/good/happy before
excellent/amazing/great, first match wins, default NEUTRAL. -/
def sentimentOf (lc : List Char) : String :=
  if containsSub lc "problem".toList || containsSub lc "error".toList || containsSub lc "issue".toList then
    "NEGATIVE"
  else if containsSub lc "angry".toList || containsSub lc "frustrated".toList || containsSub lc "terrible".toList then
    "VERY_NEGATIVE"
  else if containsSub lc "thanks".toList || containsSub lc "good".toList || containsSub lc "happy".toList then
    "POSITIVE"
  else if containsSub lc "excellent".toList || containsSub lc "amazing".toList || containsSub lc "great".toList then
    "VERY_POSITIVE"
  else "NEUTRAL"

/-- Key update on the emotions object: an existing key keeps its position
and gets the new value, a new key is appended (JavaScript object
assignment emotions[tag] = v). -/
def setKey (m : List (String × ℚ)) (k : String) (v : ℚ) : List (String × ℚ) :=
  if m.any (fun p => p.1 == k) then
    m.map (fun p => if p.1 == k then (p.1, v) else p)
  else m ++ [(k, v)]

/-- Emotion weights of mockAnalysis: the object starts as NEUTRAL 0.8 and
each sentiment branch overwrites or appends tags exactly as the source
assignments do, guarded by the same keyword conditions. -/
def emotionsOf (lc : List Char) : List (String × ℚ) :=
  let e0 : List (String × ℚ) := [("NEUTRAL", 8/10)]
  if containsSub lc "problem".toList || containsSub lc "error".toList || containsSub lc "issue".toList then
    setKey (setKey e0 "SADNESS" (5/10)) "NEUTRAL" (3/10)
  else if containsSub lc "angry".toList || containsSub lc "frustrated".toList || containsSub lc "terrible".toList then
    setKey (setKey e0 "ANGER" (7/10)) "SADNESS" (2/10)
  else if containsSub lc "thanks".toList || containsSub lc "good".toList || containsSub lc "happy".toList then
    setKey (setKey e0 "HAPPINESS" (6/10)) "NEUTRAL" (4/10)
  else if containsSub lc "excellent".toList || containsSub lc "amazing".toList || containsSub lc "great".toList then
    setKey (setKey e0 "HAPPINESS" (8/10)) "SURPRISE" (2/10)
  else e0

/-- Urgency cascade of mockAnalysis: urgent/asap/immediately give HIGH,
else critical/emergency give CRITICAL, else the no-hurry phrases give LOW,
default NORMAL. -/
def urgencyOf (lc : List Char) : String :=
  if containsSub lc "urgent".toList || containsSub lc "asap".toList || containsSub lc "immediately".toList then
    "HIGH"
  else if containsSub lc "critical".toList || containsSub lc "emergency".toList then
    "CRITICAL"
  else if containsSub lc "when you have time".toList || containsSub lc "no rush".toList then
    "LOW"
  else "NORMAL"

/-- Formality cascade of mockAnalysis. -/
def formalityOf (lc : List Char) : String :=
  if containsSub lc "dear sir".toList || containsSub lc "yours sincerely".toList || containsSub lc "to whom it may concern".toList then
    "FORMAL"
  else if containsSub lc "hey".toList || containsSub lc "btw".toList || containsSub lc "lol".toList then
    "INFORMAL"
  else "NEUTRAL"

/-- Keyword stub classifier (src/services/llmService.js, mockAnalysis). -/
def mockAnalysis (content : List Char) : ToneAnalysis :=
  { sentiment := sentimentOf (lowerContent content)
    emotions := emotionsOf (lowerContent content)
    urgency := urgencyOf (lowerContent content)
    formality := formalityOf (lowerContent content)
    topTopics := topTopicsOf (lowerContent content)
    summaryText := summaryOf content }

/-- Whitespace class of JavaScript String.prototype.trim, restricted to the
ASCII whitespace characters. -/
def isJsWs (c : Char) : Bool :=
  c == ' ' || c == '\t' || c == '\n' || c == '\r' || c.toNat == 11 || c.toNat == 12

/-- Embedding of content.trim(): strip leading and trailing whitespace. -/
def jsTrim (cs : List Char) : List Char :=
  ((cs.dropWhile isJsWs).reverse.dropWhile isJsWs).reverse

/-- Tone analysis entry point (src/services/llmService.js, analyzeTone):
empty or whitespace-only content gets the default analysis, otherwise the
keyword stub runs (the try/catch around it never fires, mockAnalysis is
total). -/
def analyzeTone (content : List Char) : ToneAnalysis :=
  if content.isEmpty || (jsTrim content).isEmpty then ToneAnalysis.createDefault
  else mockAnalysis content

/-- Auto-reply decision (src/services/emailService.js, shouldAutoReply).
The source reads exchange.message.body.toneAnalysis and returns false when
it is absent; the Option argument models that access. -/
def shouldAutoReply : Option ToneAnalysis → Bool
  | none => false
  | some a =>
    a.urgency == "HIGH" || a.urgency == "CRITICAL" ||
    a.sentiment == "NEGATIVE" || a.sentiment == "VERY_NEGATIVE"

/-- Email message record (src/models/emailMessage.js, class EmailMessage).
The JavaScript fields from and to are Lean keywords and are embedded as
fromAddr and toAddr.
Dates are abstract ticks, nothing in the claims reads them. -/
structure EmailMessage where
  id : Option Nat
  fromAddr : String
  toAddr : String
  subject : Option String
  content : Option (List Char)
  receivedDate : Nat
  processedDate : Option Nat
  toneAnalysis : Option ToneAnalysis
  status : String
deriving DecidableEq

/-- Headers of a Camel exchange as the services read them. -/
structure Headers where
  fromAddr : String
  toAddr : String
  subject : Option String
deriving DecidableEq

/-- Body of a Camel exchange: either raw text (inbound content, or a reply
text after generateReply) or an EmailMessage instance. -/
inductive ExchangeBody where
  | raw (s : List Char)
  | msg (m : EmailMessage)
deriving DecidableEq

/-- Camel exchange as far as the email services use it. -/
structure Exchange where
  headers : Headers
  body : ExchangeBody
deriving DecidableEq

/-- Persisted view of the emails table: id to status.  The claims only
observe statuses, the stored analysis text is not modelled. -/
abbrev Db := List (Nat × String)

/-- Fresh row id for an INSERT (better-sqlite3 lastInsertRowid). -/
def freshId (db : Db) : Nat :=
  (db.map (fun p => p.1)).foldr max 0 + 1

/-- Status overwrite of an existing row. -/
def dbSet (db : Db) (i : Nat) (st : String) : Db :=
  db.map (fun p => if p.1 == i then (p.1, st) else p)

/-- Row insertion. -/
def dbInsert (db : Db) (i : Nat) (st : String) : Db :=
  db ++ [(i, st)]

/-- Status lookup. -/
def dbStatus (db : Db) (i : Nat) : Option String :=
  (db.find? (fun p => p.1 == i)).map (fun p => p.2)

/-- Embedding of updateEmailStatus (both service variants): one UPDATE
statement, returned together with its entry for the status write log.  A
null id binds no row and logs nothing. -/
def updateEmailStatus (db : Db) (oid : Option Nat) (st : String) : Db × List (Nat × String) :=
  match oid with
  | none => (db, [])
  | some i => (dbSet db i st, [(i, st)])

/-- Outcome of one service call: the exchange after the call, the database,
the ordered log of status UPDATEs, and the error propagated to the caller
when the call rethrew. -/
structure ProcOutcome where
  exch : Exchange
  db : Db
  writes : List (Nat × String)
  err : Option String
deriving DecidableEq

/-- Embedding of extractEmailFromExchange (both service variants): an
EmailMessage body is passed through, raw text becomes a fresh RECEIVED
message inserted into the database (saveEmailToDatabase). -/
def extractEmailFromExchange (exch : Exchange) (db : Db) : EmailMessage × Db :=
  match exch.body with
  | .msg m => (m, db)
  | .raw s =>
    let i := freshId db
    ({ id := some i
       fromAddr := exch.headers.fromAddr
       toAddr := exch.headers.toAddr
       subject := some (exch.headers.subject.getD "")
       content := some s
       receivedDate := 0
       processedDate := none
       toneAnalysis := none
       status := "RECEIVED" }, dbInsert db i "RECEIVED")

/-- Embedding of processEmail from src/services/emailService.js (the
function variant).  The required llmService module is the classify
parameter; the file in the repository supplies the total analyzeTone, an
LLM-backed variant may fail, which Except models.  On failure the catch
block only rethrows. -/
def processEmailFn (classify : List Char → Except String ToneAnalysis)
    (now : Nat) (exch : Exchange) (db : Db) : ProcOutcome :=
  let ed := extractEmailFromExchange exch db
  let email := ed.1
  let uw := updateEmailStatus ed.2 email.id "PROCESSING"
  match classify (email.content.getD []) with
  | .error e => { exch := exch, db := uw.1, writes := uw.2, err := some e }
  | .ok ta =>
    let processedEmail :=
      { email with toneAnalysis := some ta, processedDate := some now, status := "PROCESSED" }
    let sw := updateEmailStatus uw.1 processedEmail.id "PROCESSED"
    { exch := { exch with body := .msg processedEmail }
      db := sw.1
      writes := uw.2 ++ sw.2
      err := none }

/-- Embedding of EmailService.processEmail (the class variant).  Identical
pipeline, except that the catch block sets status ERROR before rethrowing,
and only when exchange.message.body is a truthy EmailMessage whose id is
truthy (a raw string body, or a message without id, or id 0, is skipped).
The archiveEmail call writes no database row and is not modelled. -/
def processEmailClass (classify : List Char → Except String ToneAnalysis)
    (now : Nat) (exch : Exchange) (db : Db) : ProcOutcome :=
  let ed := extractEmailFromExchange exch db
  let email := ed.1
  let uw := updateEmailStatus ed.2 email.id "PROCESSING"
  match classify (email.content.getD []) with
  | .error e =>
    let ew :=
      match exch.body with
      | .msg m =>
        match m.id with
        | some i => if i ≠ 0 then updateEmailStatus uw.1 (some i) "ERROR" else (uw.1, [])
        | none => (uw.1, [])
      | .raw _ => (uw.1, [])
    { exch := exch, db := ew.1, writes := uw.2 ++ ew.2, err := some e }
  | .ok ta =>
    let processedEmail :=
      { email with toneAnalysis := some ta, processedDate := some now, status := "PROCESSED" }
    let sw := updateEmailStatus uw.1 processedEmail.id "PROCESSED"
    { exch := { exch with body := .msg processedEmail }
      db := sw.1
      writes := uw.2 ++ sw.2
      err := none }

/-- Replacement of the first occurrence of a pattern, the embedding of
JavaScript String.prototype.replace with a string pattern; an absent
pattern leaves the text unchanged. -/
def replaceOnce (pat rep : List Char) : List Char → List Char
  | [] => if pat.isEmpty then rep else []
  | c :: t =>
    if pat.isPrefixOf (c :: t) then rep ++ (c :: t).drop pat.length
    else c :: replaceOnce pat rep t

/-- Template DEFAULT_REPLY of src/services/emailService.js. -/
def DEFAULT_REPLY : List Char :=
  "\nWitaj,\n\nDziękujemy za wiadomość. To jest automatyczna odpowiedź.\n\nOtrzymaliśmy Twoją wiadomość o temacie: \"\x7bsubject\x7d\"\n\nZajmiemy się nią tak szybko, jak to możliwe.\n\nPozdrawiamy,\nSystem Email LLM Processor\n".toList

/-- Template URGENT_REPLY of src/services/emailService.js. -/
def URGENT_REPLY : List Char :=
  "\nWitaj,\n\nDziękujemy za wiadomość. To jest automatyczna odpowiedź.\n\nOtrzymaliśmy Twoją pilną wiadomość o temacie: \"\x7bsubject\x7d\"\n\nZauważyliśmy, że sprawa jest krytycznie ważna. Zajmiemy się nią priorytetowo.\n\nPozdrawiamy,\nSystem Email LLM Processor\n".toList

/-- Template HIGH_PRIORITY_REPLY of src/services/emailService.js. -/
def HIGH_PRIORITY_REPLY : List Char :=
  "\nWitaj,\n\nDziękujemy za wiadomość. To jest automatyczna odpowiedź.\n\nOtrzymaliśmy Twoją ważną wiadomość o temacie: \"\x7bsubject\x7d\"\n\nZauważyliśmy, że sprawa jest pilna. Zajmiemy się nią tak szybko, jak to możliwe.\n\nPozdrawiamy,\nSystem Email LLM Processor\n".toList

/-- Template NEGATIVE_REPLY of src/services/emailService.js. -/
def NEGATIVE_REPLY : List Char :=
  "\nWitaj,\n\nDziękujemy za wiadomość. To jest automatyczna odpowiedź.\n\nOtrzymaliśmy Twoją wiadomość o temacie: \"\x7bsubject\x7d\"\n\nPrzepraszamy za wszelkie niedogodności. Postaramy się rozwiązać problem jak najszybciej.\n\nPozdrawiamy,\nSystem Email LLM Processor\n".toList

/-- Template VERY_NEGATIVE_REPLY of src/services/emailService.js. -/
def VERY_NEGATIVE_REPLY : List Char :=
  "\nWitaj,\n\nDziękujemy za wiadomość. To jest automatyczna odpowiedź.\n\nOtrzymaliśmy Twoją wiadomość o temacie: \"\x7bsubject\x7d\"\n\nBardzo nam przykro, że pojawił się problem. Z najwyższym priorytetem zajmiemy się Twoją sprawą.\n\nPozdrawiamy,\nSystem Email LLM Processor\n".toList

/-- Template POSITIVE_REPLY of src/services/emailService.js. -/
def POSITIVE_REPLY : List Char :=
  "\nWitaj,\n\nDziękujemy za wiadomość. To jest automatyczna odpowiedź.\n\nOtrzymaliśmy Twoją wiadomość o temacie: \"\x7bsubject\x7d\"\n\nDziękujemy za pozytywne informacje. Odpowiemy na Twoją wiadomość wkrótce.\n\nPozdrawiamy,\nSystem Email LLM Processor\n".toList

/-- Template selection of generateReply in src/services/emailService.js:
the switch on urgency (CRITICAL, then HIGH) falling through to the switch
on sentiment, with DEFAULT_REPLY for an absent analysis and for the
default cases.  Sender history is not an input of this selection. -/
def selectReplyText : Option ToneAnalysis → List Char
  | none => DEFAULT_REPLY
  | some a =>
    if a.urgency = "CRITICAL" then URGENT_REPLY
    else if a.urgency = "HIGH" then HIGH_PRIORITY_REPLY
    else if a.sentiment = "VERY_NEGATIVE" then VERY_NEGATIVE_REPLY
    else if a.sentiment = "NEGATIVE" then NEGATIVE_REPLY
    else if a.sentiment = "POSITIVE" ∨ a.sentiment = "VERY_POSITIVE" then POSITIVE_REPLY
    else DEFAULT_REPLY

/-- Personalisation chain of generateReply in src/services/emailService.js:
replace subject, then summary, then sender, each once. -/
def personalizeReply (a : Option ToneAnalysis) (m : EmailMessage) (t : List Char) : List Char :=
  replaceOnce "\x7bfrom\x7d".toList m.fromAddr.toList
    (replaceOnce "\x7bsummary\x7d".toList (match a with | some ta => ta.summaryText | none => []) 
      (replaceOnce "\x7bsubject\x7d".toList (m.subject.getD "").toList t))

/-- Embedding of generateReply from src/services/emailService.js: select
and personalise the reply, put it on the exchange, persist REPLIED.  On a
raw body the status UPDATE binds an undefined id, better-sqlite3 rejects
it, and the catch block replaces the body with DEFAULT_REPLY, so no status
write happens there either. -/
def generateReplyFn (exch : Exchange) (db : Db) : ProcOutcome :=
  match exch.body with
  | .raw _ =>
    { exch := { exch with body := .raw DEFAULT_REPLY }, db := db, writes := [], err := none }
  | .msg m =>
    let replyText := personalizeReply m.toneAnalysis m (selectReplyText m.toneAnalysis)
    let uw := updateEmailStatus db m.id "REPLIED"
    { exch := { exch with body := .raw replyText }, db := uw.1, writes := uw.2, err := none }

/-- Constant DEFAULT_REPLY of the class-based EmailService source (the
fallback used by its generateReply catch block). -/
def CLASS_DEFAULT_REPLY : List Char :=
  "\nWitaj,\n\nDziękujemy za wiadomość o temacie: \"\x7bsubject\x7d\".\n\nOtrzymaliśmy Twoją wiadomość i zajmiemy się nią wkrótce.\n\nPozdrawiamy,\nZespół Obsługi Klienta\n".toList

/-- Fallback reply built by the catch block of EmailService.generateReply:
the class default with subject and sender substituted. -/
def classDefaultReplyFor (m : EmailMessage) : List Char :=
  replaceOnce "\x7bfrom\x7d".toList m.fromAddr.toList
    (replaceOnce "\x7bsubject\x7d".toList (m.subject.getD "").toList CLASS_DEFAULT_REPLY)

/-- Outcome of the class-based reply stage: the reply text placed on the
exchange body, the database, and the status write log. -/
structure ReplyOutcome where
  reply : List Char
  db : Db
  writes : List (Nat × String)
deriving DecidableEq

/-- Sender history record (spec section 3): prior message count and the
timestamp of the most recent contact. -/
structure SenderHistory where
  priorCount : Nat
  lastContact : Option Nat
deriving DecidableEq

/-- Modelled from the spec: the repository wires
src/services/advancedReplyService.js as the template selector, but that
file is absent from the sources; this is its selection order from spec
section 4.3 — urgency CRITICAL, then negative sentiment with a repeated
sender, then a frequent sender at or above the configured threshold, else
the default key.  An absent analysis skips the two analysis rules. -/
def advSelectTemplateKey (a : Option ToneAnalysis) (h : SenderHistory) (threshold : Nat) : String :=
  match a with
  | some ta =>
    if ta.urgency = "CRITICAL" then "urgent_critical"
    else if (ta.sentiment = "NEGATIVE" ∨ ta.sentiment = "VERY_NEGATIVE") ∧ 0 < h.priorCount then "negative_repeated"
    else if threshold ≤ h.priorCount then "frequent_sender"
    else "default"
  | none => if threshold ≤ h.priorCount then "frequent_sender" else "default"

/-- Modelled from the spec: advancedReplyService.generateReply — select a
template key, look it up in the template store, and substitute the
placeholders; a key absent from the store is the distinct TemplateNotFound
error, never silently defaulted (spec sections 4.3, 6 and 7). -/
def advGenerateReply (store : List (String × List Char)) (threshold : Nat) (h : SenderHistory)
    (m : EmailMessage) (a : Option ToneAnalysis) : Except String (List Char) :=
  let key := advSelectTemplateKey a h threshold
  match store.find? (fun p => p.1 == key) with
  | none => Except.error ("TemplateNotFound: " ++ key)
  | some p =>
    Except.ok
      (replaceOnce "\x7b\x7bLAST_EMAIL_DATE\x7d\x7d".toList ((h.lastContact.map toString).getD "").toList
        (replaceOnce "\x7b\x7bEMAIL_COUNT\x7d\x7d".toList (toString h.priorCount).toList
          (replaceOnce "\x7b\x7bSUBJECT\x7d\x7d".toList (m.subject.getD "").toList
            (replaceOnce "\x7b\x7bSENDER_NAME\x7d\x7d".toList m.fromAddr.toList p.2))))

/-- Embedding of EmailService.generateReply (the class variant): on success
the advanced reply becomes the exchange body and REPLIED is persisted; on
any error the catch block swallows it and falls back to the substituted
class default reply, leaving the database untouched. -/
def generateReplyClass (adv : EmailMessage → Option ToneAnalysis → Except String (List Char))
    (m : EmailMessage) (db : Db) : ReplyOutcome :=
  match adv m m.toneAnalysis with
  | .ok t =>
    let uw := updateEmailStatus db m.id "REPLIED"
    { reply := t, db := uw.1, writes := uw.2 }
  | .error _ =>
    { reply := classDefaultReplyFor m, db := db, writes := [] }

/-- Rank of a status in the lifecycle order RECEIVED < PROCESSING <
PROCESSED < REPLIED of spec section 4.4; ERROR and unknown tags sit outside
the chain and rank above it. -/
def statusRank (s : String) : Nat :=
  if s = "RECEIVED" then 0
  else if s = "PROCESSING" then 1
  else if s = "PROCESSED" then 2
  else if s = "REPLIED" then 3
  else 4

/-- Classifier instantiation matching the llmService module shipped in the
repository: the total analyzeTone, which never fails. -/
def okClassify : List Char → Except String ToneAnalysis :=
  fun c => Except.ok (analyzeTone c)

/-- Classifier that fails, as an LLM-backed analyzeTone may. -/
def failClassify : List Char → Except String ToneAnalysis :=
  fun _ => Except.error "LLM failure"

/-- Concrete headers for the closed test runs. -/
def sampleHeaders : Headers :=
  { fromAddr := "alice@example.com", toAddr := "service@example.com", subject := some "Hello" }

/-- Concrete analysis with CRITICAL urgency and a non-negative sentiment. -/
def sampleCriticalAnalysis : ToneAnalysis :=
  { sentiment := "POSITIVE"
    emotions := [("NEUTRAL", 8/10)]
    urgency := "CRITICAL"
    formality := "NEUTRAL"
    topTopics := []
    summaryText := "critical emergency".toList }

/-- Concrete processed message holding the critical analysis. -/
def sampleMsg : EmailMessage :=
  { id := some 1
    fromAddr := "alice@example.com"
    toAddr := "service@example.com"
    subject := some "Help"
    content := some "critical emergency".toList
    receivedDate := 0
    processedDate := some 0
    toneAnalysis := some sampleCriticalAnalysis
    status := "PROCESSED" }

/-- Helper: every entry logged by one updateEmailStatus call carries the
status that was written. -/
theorem updateEmailStatus_writes (db : Db) (oid : Option Nat) (st : String) :
    ∀ p ∈ (updateEmailStatus db oid st).2, p.2 = st := by
  cases oid <;> simp [updateEmailStatus]

/-- Helper: dropWhile removes a list entirely when the predicate holds on
every element. -/
theorem dropWhile_eq_nil_of_all (l : List Char) (h : l.all isJsWs = true) :
    l.dropWhile isJsWs = [] := by
  induction l with
  | nil => rfl
  | cons a t ih =>
    simp only [List.all_cons, Bool.and_eq_true] at h
    simp [List.dropWhile_cons, h.1, ih h.2]

/-- Helper: trimming a whitespace-only list yields the empty list. -/
theorem jsTrim_eq_nil_of_all (l : List Char) (h : l.all isJsWs = true) :
    jsTrim l = [] := by
  unfold jsTrim
  rw [dropWhile_eq_nil_of_all l h]
  simp

/-- Helper: the sentiment cascade only produces enumerated tags. -/
theorem sentimentOf_mem (lc : List Char) : sentimentOf lc ∈ sentimentValues := by
  unfold sentimentOf
  split_ifs <;> simp [sentimentValues]

/-- Helper: the urgency cascade only produces enumerated tags. -/
theorem urgencyOf_mem (lc : List Char) : urgencyOf lc ∈ urgencyValues := by
  unfold urgencyOf
  split_ifs <;> simp [urgencyValues]

/-- Helper: the formality cascade only produces enumerated tags. -/
theorem formalityOf_mem (lc : List Char) : formalityOf lc ∈ formalityValues := by
  unfold formalityOf
  split_ifs <;> simp [formalityValues]

/-- Helper: topic extraction keeps at most four topics. -/
theorem topTopicsOf_len (lc : List Char) : (topTopicsOf lc).length ≤ 4 := by
  unfold topTopicsOf
  simp [List.length_take]

/-- C1: shouldAutoReply returns true exactly when the urgency is HIGH or
CRITICAL or the sentiment is NEGATIVE or VERY_NEGATIVE, and returns false
when the analysis is absent. -/
theorem C1_shouldAutoReply_iff :
    (∀ a : ToneAnalysis, shouldAutoReply (some a) = true ↔
      (a.urgency = "HIGH" ∨ a.urgency = "CRITICAL" ∨
       a.sentiment = "NEGATIVE" ∨ a.sentiment = "VERY_NEGATIVE")) ∧
    shouldAutoReply none = false := by
  refine ⟨fun a => ?_, rfl⟩
  simp [shouldAutoReply, or_assoc]

/-- C1 check at a concrete analysis. -/
theorem C1_shouldAutoReply_iff_w :
    shouldAutoReply (some sampleCriticalAnalysis) = true :=
  (C1_shouldAutoReply_iff.1 sampleCriticalAnalysis).mpr (Or.inr (Or.inl rfl))

/-- C2: on empty or whitespace-only content, analyzeTone returns the fixed
default analysis of ToneAnalysis.createDefault. -/
theorem C2_classify_default (content : List Char)
    (h : content = [] ∨ content.all isJsWs = true) :
    analyzeTone content = ToneAnalysis.createDefault := by
  rcases h with h | h
  · subst h; rfl
  · unfold analyzeTone
    rw [jsTrim_eq_nil_of_all content h]
    simp

/-- C2 check on a concrete whitespace-only input. -/
theorem C2_classify_default_w :
    (" \t\n".toList.all isJsWs = true) ∧
    analyzeTone " \t\n".toList = ToneAnalysis.createDefault :=
  ⟨by decide, C2_classify_default _ (Or.inr (by decide))⟩

/-- C3: content whose lower-cased form contains problem, error or issue is
classified NEGATIVE, whatever else it contains — the NEGATIVE branch is
checked before the VERY_NEGATIVE branch and first match wins. -/
theorem C3_negative_precedence (content : List Char)
    (h : containsSub (lowerContent content) "problem".toList = true ∨
         containsSub (lowerContent content) "error".toList = true ∨
         containsSub (lowerContent content) "issue".toList = true) :
    (mockAnalysis content).sentiment = "NEGATIVE" := by
  rcases h with h | h | h <;> simp_all [mockAnalysis, sentimentOf]

/-- C3 check on content containing both a NEGATIVE and a VERY_NEGATIVE
keyword. -/
theorem C3_negative_precedence_w :
    (containsSub (lowerContent "problem angry".toList) "problem".toList = true) ∧
    (containsSub (lowerContent "problem angry".toList) "angry".toList = true) ∧
    (mockAnalysis "problem angry".toList).sentiment = "NEGATIVE" :=
  ⟨by decide, by decide, C3_negative_precedence _ (Or.inl (by decide))⟩

/-- C4: an analysis with CRITICAL urgency always selects the urgent
critical reply — in the shipped generateReply switch, which never consults
history, and in the spec-modelled advanced selector for every history and
threshold. -/
theorem C4_critical_template (a : ToneAnalysis) (hist : SenderHistory) (threshold : Nat)
    (h : a.urgency = "CRITICAL") :
    selectReplyText (some a) = URGENT_REPLY ∧
    advSelectTemplateKey (some a) hist threshold = "urgent_critical" := by
  constructor <;> simp [selectReplyText, advSelectTemplateKey, h]

/-- C4 check at a concrete CRITICAL analysis with positive sentiment and a
frequent sender. -/
theorem C4_critical_template_w :
    sampleCriticalAnalysis.urgency = "CRITICAL" ∧
    selectReplyText (some sampleCriticalAnalysis) = URGENT_REPLY ∧
    advSelectTemplateKey (some sampleCriticalAnalysis) { priorCount := 7, lastContact := some 3 } 5 = "urgent_critical" :=
  ⟨rfl, (C4_critical_template sampleCriticalAnalysis { priorCount := 7, lastContact := some 3 } 5 rfl).1,
        (C4_critical_template sampleCriticalAnalysis { priorCount := 7, lastContact := some 3 } 5 rfl).2⟩

/-- C5 counterexample: a fresh raw-content message whose classification
fails is left with persisted status PROCESSING, not ERROR, while the error
is propagated — the catch block of the class service cannot reach the
inserted row because the exchange body is still the raw string. -/
theorem C5_error_status_cex :
    (processEmailClass failClassify 0 { headers := sampleHeaders, body := .raw "hello".toList } []).err = some "LLM failure" ∧
    (processEmailClass failClassify 0 { headers := sampleHeaders, body := .raw "hello".toList } []).writes = [(1, "PROCESSING")] ∧
    dbStatus (processEmailClass failClassify 0 { headers := sampleHeaders, body := .raw "hello".toList } []).db 1 = some "PROCESSING" := by
  decide

/-- C5 amended: when classification fails, both processEmail variants
propagate the error; the function variant never persists ERROR, and the
class variant persists ERROR exactly when the exchange body already was an
EmailMessage with a truthy id. -/
theorem C5_error_propagation (classify : List Char → Except String ToneAnalysis)
    (now : Nat) (exch : Exchange) (db : Db) (e : String)
    (h : classify ((extractEmailFromExchange exch db).1.content.getD []) = .error e) :
    (processEmailFn classify now exch db).err = some e ∧
    (processEmailClass classify now exch db).err = some e ∧
    (∀ p ∈ (processEmailFn classify now exch db).writes, p.2 ≠ "ERROR") ∧
    ((∃ m i, exch.body = ExchangeBody.msg m ∧ m.id = some i ∧ i ≠ 0) ↔
      ∃ p ∈ (processEmailClass classify now exch db).writes, p.2 = "ERROR") := by
  obtain ⟨hd, body⟩ := exch
  cases body with
  | raw s =>
    simp only [extractEmailFromExchange, Option.getD_some] at h
    refine ⟨?_, ?_, ?_, ?_⟩ <;>
      simp [processEmailFn, processEmailClass, extractEmailFromExchange, updateEmailStatus, h]
  | msg m =>
    simp only [extractEmailFromExchange] at h
    rcases hid : m.id with _ | i
    · refine ⟨?_, ?_, ?_, ?_⟩ <;>
        simp [processEmailFn, processEmailClass, extractEmailFromExchange, updateEmailStatus, h, hid]
    · by_cases hz : i = 0
      · subst hz
        refine ⟨?_, ?_, ?_, ?_⟩ <;>
          simp [processEmailFn, processEmailClass, extractEmailFromExchange, updateEmailStatus, h, hid]
      · refine ⟨?_, ?_, ?_, ?_⟩ <;>
          simp [processEmailFn, processEmailClass, extractEmailFromExchange, updateEmailStatus, h, hid, hz]

/-- C5 amended, checked at a concrete failing run on a raw exchange. -/
theorem C5_error_propagation_w :
    (processEmailFn failClassify 0 { headers := sampleHeaders, body := .raw "hi".toList } []).err = some "LLM failure" ∧
    (processEmailClass failClassify 0 { headers := sampleHeaders, body := .raw "hi".toList } []).err = some "LLM failure" ∧
    (∀ p ∈ (processEmailFn failClassify 0 { headers := sampleHeaders, body := .raw "hi".toList } []).writes, p.2 ≠ "ERROR") ∧
    ((∃ m i, ({ headers := sampleHeaders, body := .raw "hi".toList } : Exchange).body = ExchangeBody.msg m ∧ m.id = some i ∧ i ≠ 0) ↔
      ∃ p ∈ (processEmailClass failClassify 0 { headers := sampleHeaders, body := .raw "hi".toList } []).writes, p.2 = "ERROR") := by
  exact C5_error_propagation failClassify 0 { headers := sampleHeaders, body := .raw "hi".toList } [] "LLM failure" rfl

/-- C6 counterexample: with the critical template absent from the store,
the class reply stage leaves the message in PROCESSED and does not write
REPLIED, but instead of sending no reply it puts the substituted built-in
default reply on the exchange — the outgoing body the route then sends. -/
theorem C6_template_missing_cex :
    (generateReplyClass (advGenerateReply [] 5 { priorCount := 2, lastContact := some 1 }) sampleMsg [(1, "PROCESSED")]).writes = [] ∧
    dbStatus (generateReplyClass (advGenerateReply [] 5 { priorCount := 2, lastContact := some 1 }) sampleMsg [(1, "PROCESSED")]).db 1 = some "PROCESSED" ∧
    (generateReplyClass (advGenerateReply [] 5 { priorCount := 2, lastContact := some 1 }) sampleMsg [(1, "PROCESSED")]).reply = classDefaultReplyFor sampleMsg ∧
    (generateReplyClass (advGenerateReply [] 5 { priorCount := 2, lastContact := some 1 }) sampleMsg [(1, "PROCESSED")]).reply ≠ [] := by
  decide

/-- C6 amended: whenever the advanced reply stage fails — in particular on
TemplateNotFound — no status is written, the database is unchanged (the
message stays PROCESSED, never advancing to REPLIED), and the exchange
body becomes the substituted class default reply rather than no reply. -/
theorem C6_template_missing_fallback
    (adv : EmailMessage → Option ToneAnalysis → Except String (List Char))
    (m : EmailMessage) (db : Db) (e : String)
    (h : adv m m.toneAnalysis = .error e) :
    (generateReplyClass adv m db).writes = [] ∧
    (generateReplyClass adv m db).db = db ∧
    (generateReplyClass adv m db).reply = classDefaultReplyFor m := by
  simp [generateReplyClass, h]

/-- C6 amended, checked at a concrete empty template store. -/
theorem C6_template_missing_fallback_w :
    (advGenerateReply [] 5 { priorCount := 2, lastContact := some 1 } sampleMsg sampleMsg.toneAnalysis =
      Except.error "TemplateNotFound: urgent_critical") ∧
    (generateReplyClass (advGenerateReply [] 5 { priorCount := 2, lastContact := some 1 }) sampleMsg [(2, "PROCESSED")]).writes = [] ∧
    (generateReplyClass (advGenerateReply [] 5 { priorCount := 2, lastContact := some 1 }) sampleMsg [(2, "PROCESSED")]).db = [(2, "PROCESSED")] ∧
    (generateReplyClass (advGenerateReply [] 5 { priorCount := 2, lastContact := some 1 }) sampleMsg [(2, "PROCESSED")]).reply = classDefaultReplyFor sampleMsg := by
  have hmain := C6_template_missing_fallback
    (advGenerateReply [] 5 { priorCount := 2, lastContact := some 1 })
    sampleMsg [(2, "PROCESSED")] "TemplateNotFound: urgent_critical" rfl
  exact ⟨rfl, hmain.1, hmain.2.1, hmain.2.2⟩

/-- C7 counterexample: running processEmail a second time on the exchange
produced by a first run re-persists PROCESSING on a row already at
PROCESSED — a backward move in the lifecycle order, so the status sequence
is not monotone. -/
theorem C7_monotonicity_cex :
    dbStatus (processEmailFn okClassify 0 { headers := sampleHeaders, body := .raw "hello".toList } []).db 1 = some "PROCESSED" ∧
    (processEmailFn okClassify 0
      (processEmailFn okClassify 0 { headers := sampleHeaders, body := .raw "hello".toList } []).exch
      (processEmailFn okClassify 0 { headers := sampleHeaders, body := .raw "hello".toList } []).db).writes
      = [(1, "PROCESSING"), (1, "PROCESSED")] ∧
    statusRank "PROCESSING" < statusRank "PROCESSED" := by
  decide

/-- C7 amended: no core operation ever persists RECEIVED on any row, so a
message can never return to RECEIVED (in particular PROCESSED to RECEIVED
is impossible), even though full monotonicity fails. -/
theorem C7_no_received_write :
    (∀ classify now exch db, ∀ p ∈ (processEmailFn classify now exch db).writes, p.2 ≠ "RECEIVED") ∧
    (∀ classify now exch db, ∀ p ∈ (processEmailClass classify now exch db).writes, p.2 ≠ "RECEIVED") ∧
    (∀ exch db, ∀ p ∈ (generateReplyFn exch db).writes, p.2 ≠ "RECEIVED") ∧
    (∀ adv m db, ∀ p ∈ (generateReplyClass adv m db).writes, p.2 ≠ "RECEIVED") := by
  refine ⟨?_, ?_, ?_, ?_⟩
  · intro classify now exch db p hp
    rcases hc : classify ((extractEmailFromExchange exch db).1.content.getD []) with e | ta
    · simp only [processEmailFn, hc] at hp
      rw [updateEmailStatus_writes _ _ _ p hp]
      decide
    · simp only [processEmailFn, hc, List.mem_append] at hp
      rcases hp with hp | hp <;> rw [updateEmailStatus_writes _ _ _ p hp] <;> decide
  · intro classify now exch db p hp
    rcases hc : classify ((extractEmailFromExchange exch db).1.content.getD []) with e | ta
    · obtain ⟨hd, body⟩ := exch
      cases body with
      | raw s =>
        simp only [processEmailClass, hc, List.mem_append, List.not_mem_nil, or_false] at hp
        rw [updateEmailStatus_writes _ _ _ p hp]
        decide
      | msg m =>
        rcases hid : m.id with _ | i
        · simp only [processEmailClass, hc, hid, List.mem_append, List.not_mem_nil, or_false] at hp
          rw [updateEmailStatus_writes _ _ _ p hp]
          decide
        · by_cases hz : i = 0
          · subst hz
            simp only [processEmailClass, hc, hid, List.mem_append, List.not_mem_nil, or_false,
              ne_eq, not_true_eq_false, if_false, reduceIte] at hp
            rw [updateEmailStatus_writes _ _ _ p hp]
            decide
          · simp only [processEmailClass, hc, hid, hz, List.mem_append, ne_eq,
              not_false_iff, if_true, reduceIte] at hp
            rcases hp with hp | hp <;> rw [updateEmailStatus_writes _ _ _ p hp] <;> decide
    · simp only [processEmailClass, hc, List.mem_append] at hp
      rcases hp with hp | hp <;> rw [updateEmailStatus_writes _ _ _ p hp] <;> decide
  · intro exch db p hp
    obtain ⟨hd, body⟩ := exch
    cases body with
    | raw s => simp [generateReplyFn] at hp
    | msg m =>
      simp only [generateReplyFn] at hp
      rw [updateEmailStatus_writes _ _ _ p hp]
      decide
  · intro adv m db p hp
    rcases hc : adv m m.toneAnalysis with e | t
    · simp [generateReplyClass, hc] at hp
    · simp only [generateReplyClass, hc] at hp
      rw [updateEmailStatus_writes _ _ _ p hp]
      decide

/-- C7 amended, checked on a write produced by a concrete run. -/
theorem C7_no_received_write_w :
    ((1, "PROCESSING") : Nat × String).2 ≠ "RECEIVED" :=
  C7_no_received_write.1 okClassify 0
    { headers := sampleHeaders, body := .raw "hello".toList } [] (1, "PROCESSING") (by decide)

/-- C8: for non-empty content the classifier output stays inside the
enumerated domains and carries at most four topics. -/
theorem C8_classify_enum_domains (content : List Char) (_hne : content ≠ []) :
    (analyzeTone content).sentiment ∈ sentimentValues ∧
    (analyzeTone content).urgency ∈ urgencyValues ∧
    (analyzeTone content).formality ∈ formalityValues ∧
    (analyzeTone content).topTopics.length ≤ 4 := by
  unfold analyzeTone
  split
  · exact ⟨by simp [ToneAnalysis.createDefault, sentimentValues],
           by simp [ToneAnalysis.createDefault, urgencyValues],
           by simp [ToneAnalysis.createDefault, formalityValues],
           by simp [ToneAnalysis.createDefault]⟩
  · exact ⟨by simpa [mockAnalysis] using sentimentOf_mem (lowerContent content),
           by simpa [mockAnalysis] using urgencyOf_mem (lowerContent content),
           by simpa [mockAnalysis] using formalityOf_mem (lowerContent content),
           by simpa [mockAnalysis] using topTopicsOf_len (lowerContent content)⟩

/-- C8 check on a concrete non-empty input. -/
theorem C8_classify_enum_domains_w :
    ("hello".toList ≠ ([] : List Char)) ∧
    ((analyzeTone "hello".toList).sentiment ∈ sentimentValues ∧
     (analyzeTone "hello".toList).urgency ∈ urgencyValues ∧
     (analyzeTone "hello".toList).formality ∈ formalityValues ∧
     (analyzeTone "hello".toList).topTopics.length ≤ 4) :=
  ⟨by decide, C8_classify_enum_domains _ (by decide)⟩

/-- C9: the auto-reply decision is a function of sentiment and urgency
alone — two analyses agreeing on those fields get the same decision. -/
theorem C9_decision_two_run (a b : ToneAnalysis)
    (hs : a.sentiment = b.sentiment) (hu : a.urgency = b.urgency) :
    shouldAutoReply (some a) = shouldAutoReply (some b) := by
  simp [shouldAutoReply, hs, hu]

/-- C9 check on two analyses differing in emotions, topics and summary. -/
theorem C9_decision_two_run_w :
    (sampleCriticalAnalysis.sentiment =
      ({ sampleCriticalAnalysis with emotions := [], topTopics := ["diff".toList], summaryText := [] } : ToneAnalysis).sentiment) ∧
    shouldAutoReply (some sampleCriticalAnalysis) =
      shouldAutoReply (some { sampleCriticalAnalysis with emotions := [], topTopics := ["diff".toList], summaryText := [] }) :=
  ⟨rfl, C9_decision_two_run _ _ rfl rfl⟩

/-- C10: content containing urgent, asap or immediately gets urgency HIGH
even alongside critical keywords, and CRITICAL is assigned exactly when a
critical keyword occurs and no HIGH keyword does. -/
theorem C10_urgency_precedence (content : List Char) :
    ((containsSub (lowerContent content) "urgent".toList = true ∨
      containsSub (lowerContent content) "asap".toList = true ∨
      containsSub (lowerContent content) "immediately".toList = true) →
      (mockAnalysis content).urgency = "HIGH") ∧
    ((mockAnalysis content).urgency = "CRITICAL" ↔
      ((containsSub (lowerContent content) "critical".toList = true ∨
        containsSub (lowerContent content) "emergency".toList = true) ∧
       ¬(containsSub (lowerContent content) "urgent".toList = true ∨
         containsSub (lowerContent content) "asap".toList = true ∨
         containsSub (lowerContent content) "immediately".toList = true))) := by
  constructor
  · intro h
    rcases h with h | h | h <;> simp_all [mockAnalysis, urgencyOf]
  · simp only [mockAnalysis]
    unfold urgencyOf
    split_ifs with h1 h2 h3
    · exact iff_of_false (by decide)
        (fun hp => hp.2 (by simp only [Bool.or_eq_true] at h1; tauto))
    · exact iff_of_true rfl
        ⟨by simp only [Bool.or_eq_true] at h2; tauto,
         fun hu => h1 (by simp only [Bool.or_eq_true]; tauto)⟩
    · exact iff_of_false (by decide)
        (fun hp => h2 (by simp only [Bool.or_eq_true]; tauto))
    · exact iff_of_false (by decide)
        (fun hp => h2 (by simp only [Bool.or_eq_true]; tauto))

/-- C10 check on content containing both a HIGH and a CRITICAL keyword. -/
theorem C10_urgency_precedence_w :
    (containsSub (lowerContent "urgent critical".toList) "urgent".toList = true) ∧
    (containsSub (lowerContent "urgent critical".toList) "critical".toList = true) ∧
    (mockAnalysis "urgent critical".toList).urgency = "HIGH" :=
  ⟨by decide, by decide, (C10_urgency_precedence _).1 (Or.inl (by decide))⟩
